import Mathlib

/-!
Verification of the AgniaChallenge repository core: the multi-provider
token broker (`authorizations/src/hackathon_utils.py`, `main.py`) and the
GitHub action handlers (`team_actions/src/actions/GitHub/actions.py`).

Python dicts are embedded as association lists; the outbound HTTP world
(durable backend, provider OAuth endpoint, provider REST API) is passed in
as explicit parameters, and the side effects a run performs are returned
as an explicit event / request trace.
-/

namespace Agnia

/-- Python `d.get(k)`: first binding for the key, if any. -/
def dictGet {α : Type} (d : List (String × α)) (k : String) : Option α :=
  match d with
  | [] => none
  | (k1, v) :: rest => if k1 = k then some v else dictGet rest k

/-- Python `d[k] = v`: replace the existing binding in place, or append. -/
def dictSet {α : Type} (d : List (String × α)) (k : String) (v : α) :
    List (String × α) :=
  match d with
  | [] => [(k, v)]
  | (k1, v1) :: rest =>
      if k1 = k then (k1, v) :: rest else (k1, v1) :: dictSet rest k v

theorem dictGet_dictSet_self {α : Type} (d : List (String × α)) (k : String) (v : α) :
    dictGet (dictSet d k v) k = some v := by
  induction d with
  | nil => simp [dictGet, dictSet]
  | cons hd tl ih =>
      obtain ⟨k1, v1⟩ := hd
      by_cases h : k1 = k <;> simp [dictGet, dictSet, h, ih]

theorem dictGet_dictSet_ne {α : Type} (d : List (String × α)) (k k2 : String) (v : α)
    (h : k2 ≠ k) : dictGet (dictSet d k v) k2 = dictGet d k2 := by
  induction d with
  | nil => simp [dictGet, dictSet]; exact fun hk => h hk.symm
  | cons hd tl ih =>
      obtain ⟨k1, v1⟩ := hd
      by_cases h1 : k1 = k <;> by_cases h2 : k1 = k2 <;>
        simp_all [dictGet, dictSet]

/-- A JSON-ish payload (provider token response): a Python dict of strings. -/
abbrev Payload := List (String × String)

/-- One per-system credential entry, e.g. `[("access_token", t)]`. -/
abbrev Entry := List (String × String)

/-- The in-memory credential mapping `authorization_data`. -/
abbrev Store := List (String × Entry)

/-- Python truthiness test `not token` on an `Optional[str]`:
true for `None` and for the empty string. -/
def tokenMissing : Option String → Bool
  | none => true
  | some s => s == ""

/-- Python truthiness test `not code` on an optional query parameter. -/
def optFalsy : Option String → Bool
  | none => true
  | some s => s == ""

/-- `requests.Response.raise_for_status` raises exactly for 400–599. -/
def isHttpErrorStatus (s : Nat) : Bool := decide (400 ≤ s ∧ s < 600)

/-- Outcome of one outbound `requests` call, as seen by the caller. -/
inductive BackendOutcome : Type where
  | response : Nat → BackendOutcome
  | transportError : BackendOutcome
deriving DecidableEq

/-- Observable side effects of the broker, in the order they happen. -/
inductive Event : Type where
  | postProvider : Event
  | postBackend : String → Payload → Event
  | writeStore : String → String → Event
deriving DecidableEq

/-- How a broker call terminates, mirroring the Python control flow. -/
inductive Outcome : Type where
  | jsonResponse : Nat → String → Outcome
  | httpException : Nat → String → Outcome
  | valueError : String → Outcome
  | providerHttpError : Nat → Outcome
  | transportFailure : Outcome
deriving DecidableEq

/-- Outcome discriminator: did the call raise a `fastapi.HTTPException`? -/
def isHttpExceptionOutcome : Outcome → Bool
  | .httpException _ _ => true
  | _ => false

structure PersistResult : Type where
  events : List Event
  store : Store
  outcome : Outcome
deriving DecidableEq

/-- `hackathon_utils.save_authorization_data_and_return_response`:
POST the raw payload to the durable backend, `raise_for_status`, and only
then validate `access_token` and write the in-memory mapping.  `backend`
is the durable backend's answer to the POST; `store` the mapping before. -/
def save_authorization_data_and_return_response
    (authorization_data_response : Payload) (system_name : String)
    (backend : BackendOutcome) (store : Store) : PersistResult :=
  match backend with
  | .transportError =>
      ⟨[.postBackend system_name authorization_data_response], store,
        .httpException 500 "Error occurred while saving authorization data"⟩
  | .response s =>
      if isHttpErrorStatus s then
        ⟨[.postBackend system_name authorization_data_response], store,
          .httpException
            (if s = 400 then 400 else if s = 401 then 401
             else if s = 403 then 403 else if s = 404 then 404
             else if 500 ≤ s then 502 else 500)
            (if s = 400 then "Bad request to save authorization data"
             else if s = 401 then "Unauthorized to save authorization data"
             else if s = 403 then "Forbidden to save authorization data"
             else if s = 404 then "Endpoint to save authorization data not found"
             else if 500 ≤ s then "Server error while saving authorization data"
             else "Unexpected error")⟩
      else
        match dictGet authorization_data_response "access_token" with
        | some t =>
            ⟨[.postBackend system_name authorization_data_response,
                .writeStore system_name t],
              dictSet store system_name [("access_token", t)],
              if s = 200 then
                .jsonResponse 200 "Authorization successful and data saved."
              else
                .jsonResponse s ("Unexpected response: " ++ toString s)⟩
        | none =>
            ⟨[.postBackend system_name authorization_data_response], store,
              .valueError "No access token found in authorization_data_response"⟩

/-- Result of the Todoist callback endpoint up to the error gate
(`todoist.callback` and the persist step live past `proceed`). -/
inductive TodoistGate : Type where
  | rejected : Nat → String → TodoistGate
  | proceed : TodoistGate
deriving DecidableEq

/-- Error gate of `main.get_todoist_token`: three provider error codes are
mapped to HTTP exceptions before any exchange is attempted. -/
def get_todoist_token (code state error : Option String) : TodoistGate :=
  if error = some "invalid_application_status" then
    .rejected 500 "Invalid application status"
  else if error = some "invalid_scope" then
    .rejected 400 "Invalid scope"
  else if error = some "access_denied" then
    .rejected 403 "User denied authorization"
  else
    .proceed

structure EndpointResult : Type where
  events : List Event
  store : Store
  outcome : Outcome
deriving DecidableEq

/-- `main.get_github_token`: gate on `error == "access_denied"` and on a
missing `code`, then exchange the code at the provider and persist.
`providerResp`/`providerPayload` describe the provider token endpoint's
answer; `backend` the durable backend's answer inside persist. -/
def get_github_token (code error : Option String)
    (providerResp : BackendOutcome) (providerPayload : Payload)
    (backend : BackendOutcome) (store : Store) : EndpointResult :=
  if error = some "access_denied" then
    ⟨[], store, .httpException 403 "User denied authorization"⟩
  else if optFalsy code then
    ⟨[], store, .httpException 400 "Authorization code is missing"⟩
  else
    match providerResp with
    | .transportError => ⟨[.postProvider], store, .transportFailure⟩
    | .response s =>
        if isHttpErrorStatus s then
          ⟨[.postProvider], store, .providerHttpError s⟩
        else
          let r := save_authorization_data_and_return_response
            providerPayload "GitHub" backend store
          ⟨.postProvider :: r.events, r.store, r.outcome⟩

/-! GitHub action handlers (`team_actions/src/actions/GitHub/actions.py`).
Each handler first reads `authorization_data.get("GitHub", {}).get("access_token")`
and raises when the token is falsy; otherwise it issues its HTTP request(s).
`world i` is the HTTP status the provider returns to the handler's i-th
request; request bodies and headers carry no claim-relevant information
and are not modelled. -/

structure HttpRequest : Type where
  method : String
  url : String
deriving DecidableEq

inductive ActionOutcome : Type where
  | result : Option String → ActionOutcome
  | raisedMissing : String → ActionOutcome
  | raisedHttp : Nat → ActionOutcome
deriving DecidableEq

def isRaisedMissing : ActionOutcome → Bool
  | .raisedMissing _ => true
  | _ => false

structure ActionRun : Type where
  requests : List HttpRequest
  outcome : ActionOutcome
deriving DecidableEq

/-- `authorization_data.get("GitHub", {}).get("access_token")`. -/
def githubToken (store : Store) : Option String :=
  dictGet ((dictGet store "GitHub").getD []) "access_token"

def missingMsg : String := "Authorization token for GitHub is missing."

/-- Common shape: token check, one request, `raise_for_status`, return json. -/
def runSimpleJson (store : Store) (world : Nat → Nat) (req : HttpRequest) :
    ActionRun :=
  if tokenMissing (githubToken store) then ⟨[], .raisedMissing missingMsg⟩
  else
    let s := world 0
    if isHttpErrorStatus s then ⟨[req], .raisedHttp s⟩
    else ⟨[req], .result none⟩

/-- Common shape: token check, one request, then
`if status == 204: ok-message else: raise_for_status; return fail-message`. -/
def run204Message (store : Store) (world : Nat → Nat) (req : HttpRequest)
    (okMsg failMsg : String) : ActionRun :=
  if tokenMissing (githubToken store) then ⟨[], .raisedMissing missingMsg⟩
  else
    let s := world 0
    if s = 204 then ⟨[req], .result (some okMsg)⟩
    else if isHttpErrorStatus s then ⟨[req], .raisedHttp s⟩
    else ⟨[req], .result (some failMsg)⟩

/-- Common shape: token check, preliminary GET with `raise_for_status`,
then the main request with `raise_for_status`, then a final value. -/
def runGetThen (store : Store) (world : Nat → Nat)
    (getReq mainReq : HttpRequest) (final : ActionOutcome) : ActionRun :=
  if tokenMissing (githubToken store) then ⟨[], .raisedMissing missingMsg⟩
  else
    let s0 := world 0
    if isHttpErrorStatus s0 then ⟨[getReq], .raisedHttp s0⟩
    else
      let s1 := world 1
      if isHttpErrorStatus s1 then ⟨[getReq, mainReq], .raisedHttp s1⟩
      else ⟨[getReq, mainReq], final⟩

def create_issue (repo title : String) (body : Option String)
    (labels : Option (List String)) (store : Store) (world : Nat → Nat) :
    ActionRun :=
  runSimpleJson store world
    ⟨"POST", "https://api.github.com/repos/" ++ repo ++ "/issues"⟩

def create_repository (name : String) (description : Option String)
    (isPrivate : Bool) (store : Store) (world : Nat → Nat) : ActionRun :=
  runSimpleJson store world ⟨"POST", "https://api.github.com/user/repos"⟩

def delete_repository (repo : String) (store : Store) (world : Nat → Nat) :
    ActionRun :=
  run204Message store world
    ⟨"DELETE", "https://api.github.com/repos/" ++ repo⟩
    "Repository deleted successfully." "Failed to delete repository."

def get_issue (repo : String) (issue_number : Int) (store : Store)
    (world : Nat → Nat) : ActionRun :=
  runSimpleJson store world
    ⟨"GET", "https://api.github.com/repos/" ++ repo ++ "/issues/"
        ++ toString issue_number⟩

def update_issue (repo : String) (issue_number : Int) (title body state : Option String)
    (assignees : Option (List String)) (store : Store) (world : Nat → Nat) :
    ActionRun :=
  runSimpleJson store world
    ⟨"PATCH", "https://api.github.com/repos/Fugaret/" ++ repo ++ "/issues/"
        ++ toString issue_number⟩

def close_issue (repo : String) (issue_number : Int) (store : Store)
    (world : Nat → Nat) : ActionRun :=
  runSimpleJson store world
    ⟨"PATCH", "https://api.github.com/repos/Fugaret/" ++ repo ++ "/issues/"
        ++ toString issue_number⟩

def list_issues (repo : String) (state : Option String)
    (labels : Option (List String)) (assignee : Option String)
    (store : Store) (world : Nat → Nat) : ActionRun :=
  runSimpleJson store world
    ⟨"GET", "https://api.github.com/repos/" ++ repo ++ "/issues"⟩

def get_repository_info (repo : String) (store : Store) (world : Nat → Nat) :
    ActionRun :=
  runSimpleJson store world
    ⟨"GET", "https://api.github.com/repos/Fugaret/" ++ repo⟩

def star_repository (repo : String) (store : Store) (world : Nat → Nat) :
    ActionRun :=
  run204Message store world
    ⟨"PUT", "https://api.github.com/user/starred/" ++ repo⟩
    "Repository starred successfully." "Failed to star repository."

def unstar_repository (repo : String) (store : Store) (world : Nat → Nat) :
    ActionRun :=
  run204Message store world
    ⟨"DELETE", "https://api.github.com/user/starred/" ++ repo⟩
    "Repository unstarred successfully." "Failed to unstar repository."

def list_branches (repo : String) (store : Store) (world : Nat → Nat) :
    ActionRun :=
  runSimpleJson store world
    ⟨"GET", "https://api.github.com/repos/" ++ repo ++ "/branches"⟩

def create_branch (repo branch_name commit_sha : String) (store : Store)
    (world : Nat → Nat) : ActionRun :=
  runSimpleJson store world
    ⟨"POST", "https://api.github.com/repos/" ++ repo ++ "/git/refs"⟩

def delete_branch (repo branch_name : String) (store : Store)
    (world : Nat → Nat) : ActionRun :=
  run204Message store world
    ⟨"DELETE", "https://api.github.com/repos/Fugaret/" ++ repo
        ++ "/git/refs/heads/" ++ branch_name⟩
    "Branch deleted successfully." "Failed to delete branch."

def get_file_content (repo file_path branch : String) (store : Store)
    (world : Nat → Nat) : ActionRun :=
  runSimpleJson store world
    ⟨"GET", "https://api.github.com/repos/" ++ repo ++ "/contents/" ++ file_path⟩

def create_file (repo file_path content branch message : String) (store : Store)
    (world : Nat → Nat) : ActionRun :=
  runSimpleJson store world
    ⟨"PUT", "https://api.github.com/repos/" ++ repo ++ "/contents/" ++ file_path⟩

def update_file (repo file_path content branch message : String) (store : Store)
    (world : Nat → Nat) : ActionRun :=
  runGetThen store world
    ⟨"GET", "https://api.github.com/repos/" ++ repo ++ "/contents/" ++ file_path⟩
    ⟨"PUT", "https://api.github.com/repos/" ++ repo ++ "/contents/" ++ file_path⟩
    (.result none)

def delete_file (repo file_path branch message : String) (store : Store)
    (world : Nat → Nat) : ActionRun :=
  runGetThen store world
    ⟨"GET", "https://api.github.com/repos/" ++ repo ++ "/contents/" ++ file_path⟩
    ⟨"DELETE", "https://api.github.com/repos/" ++ repo ++ "/contents/" ++ file_path⟩
    (.result (some "File deleted successfully."))

def create_pull_request (repo title head base body : String) (store : Store)
    (world : Nat → Nat) : ActionRun :=
  runSimpleJson store world
    ⟨"POST", "https://api.github.com/repos/" ++ repo ++ "/pulls"⟩

def list_pull_requests (repo state : String) (store : Store)
    (world : Nat → Nat) : ActionRun :=
  runSimpleJson store world
    ⟨"GET", "https://api.github.com/repos/" ++ repo ++ "/pulls"⟩

def merge_pull_request (repo : String) (pull_number : Int)
    (commit_message : String) (store : Store) (world : Nat → Nat) : ActionRun :=
  runSimpleJson store world
    ⟨"PUT", "https://api.github.com/repos/" ++ repo ++ "/pulls/"
        ++ toString pull_number ++ "/merge"⟩

def close_pull_request (repo : String) (pull_number : Int) (store : Store)
    (world : Nat → Nat) : ActionRun :=
  runSimpleJson store world
    ⟨"PATCH", "https://api.github.com/repos/" ++ repo ++ "/pulls/"
        ++ toString pull_number⟩

/-- The 21 registered GitHub action handlers. -/
inductive GHAction : Type where
  | create_issue | create_repository | delete_repository | get_issue
  | update_issue | close_issue | list_issues | get_repository_info
  | star_repository | unstar_repository | list_branches | create_branch
  | delete_branch | get_file_content | create_file | update_file
  | delete_file | create_pull_request | list_pull_requests
  | merge_pull_request | close_pull_request
deriving DecidableEq

/-- One argument assignment covering every handler's parameter list. -/
structure Args : Type where
  repo : String
  title : String
  body : Option String
  labels : Option (List String)
  name : String
  description : Option String
  isPrivate : Bool
  issue_number : Int
  state : Option String
  assignees : Option (List String)
  assignee : Option String
  branch_name : String
  commit_sha : String
  file_path : String
  branch : String
  content : String
  message : String
  head : String
  base : String
  prBody : String
  prState : String
  pull_number : Int
  commit_message : String

/-- Dispatch a handler on an argument assignment. -/
def runAction (a : GHAction) (g : Args) (store : Store) (world : Nat → Nat) :
    ActionRun :=
  match a with
  | .create_issue => create_issue g.repo g.title g.body g.labels store world
  | .create_repository => create_repository g.name g.description g.isPrivate store world
  | .delete_repository => delete_repository g.repo store world
  | .get_issue => get_issue g.repo g.issue_number store world
  | .update_issue =>
      update_issue g.repo g.issue_number g.title g.body g.state g.assignees store world
  | .close_issue => close_issue g.repo g.issue_number store world
  | .list_issues => list_issues g.repo g.state g.labels g.assignee store world
  | .get_repository_info => get_repository_info g.repo store world
  | .star_repository => star_repository g.repo store world
  | .unstar_repository => unstar_repository g.repo store world
  | .list_branches => list_branches g.repo store world
  | .create_branch => create_branch g.repo g.branch_name g.commit_sha store world
  | .delete_branch => delete_branch g.repo g.branch_name store world
  | .get_file_content => get_file_content g.repo g.file_path g.branch store world
  | .create_file =>
      create_file g.repo g.file_path g.content g.branch g.message store world
  | .update_file =>
      update_file g.repo g.file_path g.content g.branch g.message store world
  | .delete_file => delete_file g.repo g.file_path g.branch g.message store world
  | .create_pull_request =>
      create_pull_request g.repo g.title g.head g.base g.prBody store world
  | .list_pull_requests => list_pull_requests g.repo g.prState store world
  | .merge_pull_request =>
      merge_pull_request g.repo g.pull_number g.commit_message store world
  | .close_pull_request => close_pull_request g.repo g.pull_number store world

/-- A concrete argument assignment used in closed instances. -/
def sampleArgs : Args :=
  ⟨"a/b", "t", none, none, "n", none, false, 1, none, none, none,
    "feat", "sha1", "f.txt", "main", "c", "m", "h", "main", "", "open", 1, "mm"⟩

/-! Helper lemmas shared by several claims. -/

theorem runSimpleJson_missing {store : Store} {world : Nat → Nat}
    {req : HttpRequest} (h : tokenMissing (githubToken store) = true) :
    runSimpleJson store world req = ⟨[], .raisedMissing missingMsg⟩ := by
  simp [runSimpleJson, h]

theorem run204Message_missing {store : Store} {world : Nat → Nat}
    {req : HttpRequest} {okMsg failMsg : String}
    (h : tokenMissing (githubToken store) = true) :
    run204Message store world req okMsg failMsg = ⟨[], .raisedMissing missingMsg⟩ := by
  simp [run204Message, h]

theorem runGetThen_missing {store : Store} {world : Nat → Nat}
    {getReq mainReq : HttpRequest} {final : ActionOutcome}
    (h : tokenMissing (githubToken store) = true) :
    runGetThen store world getReq mainReq final = ⟨[], .raisedMissing missingMsg⟩ := by
  simp [runGetThen, h]

/-- Any handler, on a store whose GitHub token is falsy, raises the
missing-token error with no request issued. -/
theorem runAction_missing (a : GHAction) (g : Args) (store : Store)
    (world : Nat → Nat) (h : tokenMissing (githubToken store) = true) :
    runAction a g store world = ⟨[], .raisedMissing missingMsg⟩ := by
  cases a <;>
    first
      | exact runSimpleJson_missing h
      | exact run204Message_missing h
      | exact runGetThen_missing h

theorem runSimpleJson_notMissing {store : Store} {world : Nat → Nat}
    {req : HttpRequest} (h : tokenMissing (githubToken store) = false) :
    isRaisedMissing (runSimpleJson store world req).outcome = false := by
  simp only [runSimpleJson, h, Bool.false_eq_true, if_false]
  split <;> rfl

theorem run204Message_notMissing {store : Store} {world : Nat → Nat}
    {req : HttpRequest} {okMsg failMsg : String}
    (h : tokenMissing (githubToken store) = false) :
    isRaisedMissing (run204Message store world req okMsg failMsg).outcome = false := by
  simp only [run204Message, h, Bool.false_eq_true, if_false]
  split
  · rfl
  · split <;> rfl

theorem runGetThen_notMissing {store : Store} {world : Nat → Nat}
    {getReq mainReq : HttpRequest} {final : ActionOutcome}
    (hf : isRaisedMissing final = false)
    (h : tokenMissing (githubToken store) = false) :
    isRaisedMissing (runGetThen store world getReq mainReq final).outcome = false := by
  simp only [runGetThen, h, Bool.false_eq_true, if_false]
  split
  · rfl
  · split
    · rfl
    · exact hf

/-- Any handler, on a store whose GitHub token is truthy, gets past its
missing-token check: the outcome is never the missing-token error. -/
theorem runAction_notMissing (a : GHAction) (g : Args) (store : Store)
    (world : Nat → Nat) (h : tokenMissing (githubToken store) = false) :
    isRaisedMissing (runAction a g store world).outcome = false := by
  cases a <;>
    first
      | exact runSimpleJson_notMissing h
      | exact run204Message_notMissing h
      | exact runGetThen_notMissing rfl h

theorem runSimpleJson_httpError {store : Store} {world : Nat → Nat}
    {req : HttpRequest} (h : tokenMissing (githubToken store) = false)
    (hs : isHttpErrorStatus (world 0) = true) :
    (runSimpleJson store world req).outcome = .raisedHttp (world 0) := by
  simp [runSimpleJson, h, hs]

theorem run204Message_httpError {store : Store} {world : Nat → Nat}
    {req : HttpRequest} {okMsg failMsg : String}
    (h : tokenMissing (githubToken store) = false)
    (hs : isHttpErrorStatus (world 0) = true) :
    (run204Message store world req okMsg failMsg).outcome = .raisedHttp (world 0) := by
  have h204 : world 0 ≠ 204 := by
    simp only [isHttpErrorStatus, decide_eq_true_eq] at hs
    omega
  simp [run204Message, h, hs, h204]

theorem runGetThen_httpError0 {store : Store} {world : Nat → Nat}
    {getReq mainReq : HttpRequest} {final : ActionOutcome}
    (h : tokenMissing (githubToken store) = false)
    (hs : isHttpErrorStatus (world 0) = true) :
    (runGetThen store world getReq mainReq final).outcome = .raisedHttp (world 0) := by
  simp [runGetThen, h, hs]

/-- Any handler whose first provider response carries an HTTP error
status (400–599) raises an error carrying that status. -/
theorem runAction_httpError (a : GHAction) (g : Args) (store : Store)
    (world : Nat → Nat) (h : tokenMissing (githubToken store) = false)
    (hs : isHttpErrorStatus (world 0) = true) :
    (runAction a g store world).outcome = .raisedHttp (world 0) := by
  cases a <;>
    first
      | exact runSimpleJson_httpError h hs
      | exact run204Message_httpError h hs
      | exact runGetThen_httpError0 h hs

/-! Claims. -/

/-- C3: for every registered GitHub action handler and every argument
assignment, if the credential mapping has no entry for "GitHub", the
handler raises the missing-token error ("Authorization token for GitHub
is missing.") before issuing any outbound HTTP request — the request
trace is empty, also for two-request handlers such as delete_file. -/
theorem c3_missing_credential_blocks_requests (a : GHAction) (g : Args)
    (store : Store) (world : Nat → Nat) (h : dictGet store "GitHub" = none) :
    runAction a g store world
      = ⟨[], .raisedMissing "Authorization token for GitHub is missing."⟩ := by
  have ht : tokenMissing (githubToken store) = true := by
    simp [githubToken, h, dictGet, tokenMissing]
  exact runAction_missing a g store world ht

/-- Witness for C3: delete_file on an empty credential mapping raises the
missing-token error without issuing its preliminary GET. -/
theorem c3_missing_credential_witness :
    runAction .delete_file sampleArgs [] (fun _ => 200)
      = ⟨[], .raisedMissing "Authorization token for GitHub is missing."⟩ :=
  c3_missing_credential_blocks_requests .delete_file sampleArgs [] (fun _ => 200) rfl

/-- C10: a stored but falsy credential behaves like a missing one: if the
mapping maps "GitHub" to an entry whose access_token is the empty string,
or an entry lacking the access_token key, every handler raises the same
missing-token error and makes no outbound call. -/
theorem c10_falsy_credential_missing (a : GHAction) (g : Args) (store : Store)
    (world : Nat → Nat) (e : Entry) (h : dictGet store "GitHub" = some e)
    (he : dictGet e "access_token" = none ∨ dictGet e "access_token" = some "") :
    runAction a g store world
      = ⟨[], .raisedMissing "Authorization token for GitHub is missing."⟩ := by
  have ht : tokenMissing (githubToken store) = true := by
    rcases he with he | he <;> simp [githubToken, h, he, tokenMissing]
  exact runAction_missing a g store world ht

/-- Witness for C10: create_repository with a stored empty-string token
raises the missing-token error and issues no request. -/
theorem c10_falsy_credential_witness :
    runAction .create_repository sampleArgs [("GitHub", [("access_token", "")])]
        (fun _ => 200)
      = ⟨[], .raisedMissing "Authorization token for GitHub is missing."⟩ :=
  c10_falsy_credential_missing .create_repository sampleArgs
    [("GitHub", [("access_token", "")])] (fun _ => 200)
    [("access_token", "")] (by decide) (Or.inr (by decide))

/-- Counterexample for C6: with a credential present, delete_repository on a
provider response with the non-success status 304 returns the normal dict
result {"message": "Failed to delete repository."} instead of raising an
error carrying that status. -/
theorem c6_failed_message_result_counterexample :
    (runAction .delete_repository sampleArgs
        [("GitHub", [("access_token", "tok")])] (fun _ => 304)).outcome
      = .result (some "Failed to delete repository.")
    ∧ (runAction .delete_repository sampleArgs
        [("GitHub", [("access_token", "tok")])] (fun _ => 304)).outcome
      ≠ .raisedHttp 304 := by decide

/-- C6 amended: with a credential present, whenever a provider API call
returns an HTTP error status (400–599, the statuses `raise_for_status`
raises on), the handler raises an error carrying that status and returns
no result; this holds for every handler on its first request, and for
update_file and delete_file also when the preliminary GET succeeds and the
main request fails.  (For non-2xx statuses below 400, e.g. 304, handlers
do not raise: the 204-expecting handlers return a "Failed ..." message
dict — see the counterexample.) -/
theorem c6_provider_error_amended :
    (∀ (a : GHAction) (g : Args) (store : Store) (world : Nat → Nat),
        tokenMissing (githubToken store) = false →
        isHttpErrorStatus (world 0) = true →
        (runAction a g store world).outcome = .raisedHttp (world 0))
    ∧ (∀ (g : Args) (store : Store) (world : Nat → Nat),
        tokenMissing (githubToken store) = false →
        isHttpErrorStatus (world 0) = false →
        isHttpErrorStatus (world 1) = true →
        (runAction .update_file g store world).outcome = .raisedHttp (world 1)
        ∧ (runAction .delete_file g store world).outcome = .raisedHttp (world 1)) := by
  constructor
  · exact runAction_httpError
  · intro g store world h hs0 hs1
    constructor <;> simp [runAction, update_file, delete_file, runGetThen, h, hs0, hs1]

/-- Witness for C6 amended: create_issue with a credential and a 404 reply
raises an error carrying 404; delete_file whose GET succeeds and whose
DELETE replies 500 raises an error carrying 500. -/
theorem c6_provider_error_witness :
    (runAction .create_issue sampleArgs [("GitHub", [("access_token", "tok")])]
        (fun _ => 404)).outcome = .raisedHttp 404
    ∧ (runAction .delete_file sampleArgs [("GitHub", [("access_token", "tok")])]
        (fun i => if i = 0 then 200 else 500)).outcome = .raisedHttp 500 :=
  ⟨c6_provider_error_amended.1 .create_issue sampleArgs
      [("GitHub", [("access_token", "tok")])] (fun _ => 404) (by decide) (by decide),
    (c6_provider_error_amended.2 sampleArgs [("GitHub", [("access_token", "tok")])]
      (fun i => if i = 0 then 200 else 500) (by decide) (by decide) (by decide)).2⟩

/-- C8: repository-scoped actions are inconsistent: with the same repo
argument "alice/proj", create_issue and get_issue build their URLs from it
verbatim as the owner/repo identifier, while update_issue and
get_repository_info prefix the hard-coded owner "Fugaret/", so the two
members of each pair address different repositories. -/
theorem c8_repo_addressing_inconsistency :
    (create_issue "alice/proj" "t" none none
        [("GitHub", [("access_token", "tok")])] (fun _ => 200)).requests
      = [⟨"POST", "https://api.github.com/repos/alice/proj/issues"⟩]
    ∧ (update_issue "alice/proj" 1 none none none none
        [("GitHub", [("access_token", "tok")])] (fun _ => 200)).requests
      = [⟨"PATCH", "https://api.github.com/repos/Fugaret/alice/proj/issues/1"⟩]
    ∧ (get_issue "alice/proj" 1
        [("GitHub", [("access_token", "tok")])] (fun _ => 200)).requests
      = [⟨"GET", "https://api.github.com/repos/alice/proj/issues/1"⟩]
    ∧ (get_repository_info "alice/proj"
        [("GitHub", [("access_token", "tok")])] (fun _ => 200)).requests
      = [⟨"GET", "https://api.github.com/repos/Fugaret/alice/proj"⟩]
    ∧ ("alice/proj" : String) ≠ "Fugaret/alice/proj" := by decide

/-- Counterexample for C1: a provider payload whose access_token is the
empty string persists successfully (the durable backend returns 200 and
the broker reports success), yet a subsequent create_issue invocation
still fails its missing-token check, because the handlers test Python
truthiness, not key presence. -/
theorem c1_falsy_token_counterexample :
    (save_authorization_data_and_return_response [("access_token", "")]
        "GitHub" (.response 200) []).outcome
      = .jsonResponse 200 "Authorization successful and data saved."
    ∧ runAction .create_issue sampleArgs
        (save_authorization_data_and_return_response [("access_token", "")]
          "GitHub" (.response 200) []).store (fun _ => 200)
      = ⟨[], .raisedMissing "Authorization token for GitHub is missing."⟩ := by
  decide

/-- C1 amended: for every provider token payload containing a NONEMPTY
access_token, after a successful persist (durable backend returns 2xx)
every subsequent handler invocation reads that credential from the store
and proceeds past its missing-token check.  (The single shared credential
store is modelled from the spec: the code that links the broker's
authorization_data to the handlers' module-level authorization_data lives
in team_actions.src.registration, which is not under src/.) -/
theorem c1_persist_then_invoke_amended (payload : Payload) (t : String)
    (store : Store) (c : Nat) (a : GHAction) (g : Args) (world : Nat → Nat)
    (hp : dictGet payload "access_token" = some t) (ht : t ≠ "")
    (h1 : 200 ≤ c) (h2 : c < 300) :
    githubToken (save_authorization_data_and_return_response payload
        "GitHub" (.response c) store).store = some t
    ∧ isRaisedMissing (runAction a g
        (save_authorization_data_and_return_response payload
          "GitHub" (.response c) store).store world).outcome = false := by
  have hs : isHttpErrorStatus c = false := by
    simp only [isHttpErrorStatus, decide_eq_false_iff_not]
    omega
  have hstore : (save_authorization_data_and_return_response payload
      "GitHub" (.response c) store).store
      = dictSet store "GitHub" [("access_token", t)] := by
    simp [save_authorization_data_and_return_response, hs, hp]
  have hgt : githubToken (dictSet store "GitHub" [("access_token", t)]) = some t := by
    simp [githubToken, dictGet_dictSet_self, dictGet]
  have htm : tokenMissing (githubToken (save_authorization_data_and_return_response
      payload "GitHub" (.response c) store).store) = false := by
    rw [hstore, hgt]
    simp [tokenMissing, ht]
  exact ⟨by rw [hstore]; exact hgt, runAction_notMissing a g _ world htm⟩

/-- Witness for C1 amended: persisting {"access_token": "tok"} with a 200
from the durable backend makes create_issue read "tok" and pass its check. -/
theorem c1_persist_then_invoke_witness :
    githubToken (save_authorization_data_and_return_response
        [("access_token", "tok")] "GitHub" (.response 200) []).store = some "tok"
    ∧ isRaisedMissing (runAction .create_issue sampleArgs
        (save_authorization_data_and_return_response
          [("access_token", "tok")] "GitHub" (.response 200) []).store
        (fun _ => 200)).outcome = false :=
  c1_persist_then_invoke_amended [("access_token", "tok")] "tok" [] 200
    .create_issue sampleArgs (fun _ => 200) (by decide) (by decide)
    (by decide) (by decide)

/-- Counterexample for C2: the durable backend answers with the non-2xx
status 304; `raise_for_status` does not raise for 3xx, so the broker DOES
add the entry to the in-memory mapping and returns a JSONResponse rather
than reporting a failure. -/
theorem c2_redirect_status_counterexample :
    (304 < 200 ∨ 300 ≤ 304)
    ∧ (save_authorization_data_and_return_response [("access_token", "tok")]
        "GitHub" (.response 304) []).store
      = [("GitHub", [("access_token", "tok")])]
    ∧ (save_authorization_data_and_return_response [("access_token", "tok")]
        "GitHub" (.response 304) []).outcome
      = .jsonResponse 304 "Unexpected response: 304" := by decide

/-- C2 amended: if the durable-backend POST fails with a transport error
or with an HTTP error status (400–599, the statuses `raise_for_status`
raises on), the in-memory mapping is left exactly as it was and the
attempt is reported to the caller as a failure (an HTTPException).
(A 3xx backend status is treated as success by the code — see the
counterexample.) -/
theorem c2_persist_failure_amended :
    (∀ (payload : Payload) (sys : String) (store : Store),
        save_authorization_data_and_return_response payload sys .transportError store
          = ⟨[.postBackend sys payload], store,
              .httpException 500 "Error occurred while saving authorization data"⟩)
    ∧ (∀ (payload : Payload) (sys : String) (store : Store) (s : Nat),
        isHttpErrorStatus s = true →
        (save_authorization_data_and_return_response payload sys
            (.response s) store).store = store
        ∧ isHttpExceptionOutcome (save_authorization_data_and_return_response
            payload sys (.response s) store).outcome = true) := by
  constructor
  · intro payload sys store
    rfl
  · intro payload sys store s hs
    constructor <;>
      simp [save_authorization_data_and_return_response, hs, isHttpExceptionOutcome]

/-- Witness for C2 amended: a 500 from the durable backend leaves the
empty mapping empty and raises an HTTPException. -/
theorem c2_persist_failure_witness :
    (save_authorization_data_and_return_response [("access_token", "tok")]
        "GitHub" (.response 500) []).store = ([] : Store)
    ∧ isHttpExceptionOutcome (save_authorization_data_and_return_response
        [("access_token", "tok")] "GitHub" (.response 500) []).outcome = true :=
  c2_persist_failure_amended.2 [("access_token", "tok")] "GitHub" [] 500 (by decide)

/-- Counterexample for C4: on the GitHub get-token endpoint, the provider
error code invalid_scope with a code present is NOT mapped to BadRequest —
the endpoint ignores it, performs the token exchange, and even persists
the credential, touching the store. -/
theorem c4_github_invalid_scope_counterexample :
    (get_github_token (some "abc") (some "invalid_scope") (.response 200)
        [("access_token", "tok")] (.response 200) []).outcome
      = .jsonResponse 200 "Authorization successful and data saved."
    ∧ (get_github_token (some "abc") (some "invalid_scope") (.response 200)
        [("access_token", "tok")] (.response 200) []).events
      = [.postProvider, .postBackend "GitHub" [("access_token", "tok")],
          .writeStore "GitHub" "tok"]
    ∧ (get_github_token (some "abc") (some "invalid_scope") (.response 200)
        [("access_token", "tok")] (.response 200) []).store
      = [("GitHub", [("access_token", "tok")])] := by decide

/-- C4 amended: the Todoist get-token endpoint maps all three provider
error codes as claimed (access_denied → 403, invalid_scope → 400,
invalid_application_status → 500) before any exchange; the GitHub
get-token endpoint maps only access_denied → 403, terminating with no
exchange attempted and the store untouched — other GitHub error codes are
ignored (see the counterexample). -/
theorem c4_error_mapping_amended :
    (∀ code state : Option String,
        get_todoist_token code state (some "invalid_application_status")
          = .rejected 500 "Invalid application status")
    ∧ (∀ code state : Option String,
        get_todoist_token code state (some "invalid_scope")
          = .rejected 400 "Invalid scope")
    ∧ (∀ code state : Option String,
        get_todoist_token code state (some "access_denied")
          = .rejected 403 "User denied authorization")
    ∧ (∀ (code : Option String) (providerResp : BackendOutcome)
        (providerPayload : Payload) (backend : BackendOutcome) (store : Store),
        get_github_token code (some "access_denied") providerResp
            providerPayload backend store
          = ⟨[], store, .httpException 403 "User denied authorization"⟩) :=
  ⟨fun _ _ => by simp [get_todoist_token],
    fun _ _ => by simp [get_todoist_token],
    fun _ _ => by simp [get_todoist_token],
    fun _ _ _ _ _ => by simp [get_github_token]⟩

/-- Counterexample for C5: on a 200 provider payload lacking access_token
(and a durable backend that accepts the forwarded payload), the attempt
terminates with a ValueError whose message is "No access token found in
authorization_data_response" — not exactly "No access token found" as
claimed. -/
theorem c5_message_counterexample :
    (save_authorization_data_and_return_response [("token_type", "bearer")]
        "GitHub" (.response 200) []).outcome
      = .valueError "No access token found in authorization_data_response"
    ∧ "No access token found in authorization_data_response"
      ≠ "No access token found" := by decide

/-- C5 amended: for every payload lacking an access_token field, if the
durable backend accepts the forwarded payload (no HTTP error status), the
attempt terminates with the ValueError whose message is "No access token
found in authorization_data_response" and nothing else succeeds; and for
every durable-backend outcome whatsoever, the in-memory mapping is left
unchanged (no entry written for that system). -/
theorem c5_no_access_token_amended (payload : Payload) (sys : String)
    (store : Store) (s : Nat)
    (hp : dictGet payload "access_token" = none) :
    (isHttpErrorStatus s = false →
      save_authorization_data_and_return_response payload sys (.response s) store
        = ⟨[.postBackend sys payload], store,
            .valueError "No access token found in authorization_data_response"⟩)
    ∧ (∀ backend : BackendOutcome,
        (save_authorization_data_and_return_response payload sys backend store).store
          = store) := by
  constructor
  · intro hs
    simp [save_authorization_data_and_return_response, hs, hp]
  · intro backend
    cases backend with
    | transportError => rfl
    | response s2 =>
        by_cases hs2 : isHttpErrorStatus s2 = true
        · simp [save_authorization_data_and_return_response, hs2]
        · simp [save_authorization_data_and_return_response, hs2, hp]

/-- Witness for C5 amended: a token_type-only payload with a 204 backend
reply ends in the ValueError and writes nothing. -/
theorem c5_no_access_token_witness :
    save_authorization_data_and_return_response [("token_type", "b")]
        "GitHub" (.response 204) []
      = ⟨[.postBackend "GitHub" [("token_type", "b")]], [],
          .valueError "No access token found in authorization_data_response"⟩ :=
  (c5_no_access_token_amended [("token_type", "b")] "GitHub" [] 204
    (by decide)).1 (by decide)

/-- C7: after every persist in which the durable backend did not return an
HTTP error status and the payload carries access_token t, the mapping maps
the system to exactly [("access_token", t)] (any prior entry replaced
wholesale), every other system's entry is unchanged, and the event trace
is exactly one backend POST followed by exactly one store write. -/
theorem c7_persist_write_frame (payload : Payload) (sys t : String)
    (store : Store) (s : Nat)
    (hp : dictGet payload "access_token" = some t)
    (hs : isHttpErrorStatus s = false) :
    dictGet (save_authorization_data_and_return_response payload sys
        (.response s) store).store sys = some [("access_token", t)]
    ∧ (∀ k : String, k ≠ sys →
        dictGet (save_authorization_data_and_return_response payload sys
          (.response s) store).store k = dictGet store k)
    ∧ (save_authorization_data_and_return_response payload sys
        (.response s) store).events
      = [.postBackend sys payload, .writeStore sys t] := by
  have hstore : (save_authorization_data_and_return_response payload sys
      (.response s) store).store = dictSet store sys [("access_token", t)] := by
    simp [save_authorization_data_and_return_response, hs, hp]
  refine ⟨?_, ?_, ?_⟩
  · rw [hstore]
    exact dictGet_dictSet_self store sys [("access_token", t)]
  · intro k hk
    rw [hstore]
    exact dictGet_dictSet_ne store sys k [("access_token", t)] hk
  · simp [save_authorization_data_and_return_response, hs, hp]

/-- Witness for C7: persisting a GitHub token over a store holding a stale
GitHub entry and a Todoist entry replaces the GitHub entry wholesale,
leaves the Todoist entry alone, and performs one POST and one write. -/
theorem c7_persist_write_frame_witness :
    dictGet (save_authorization_data_and_return_response
        [("access_token", "new"), ("scope", "repo")] "GitHub" (.response 200)
        [("GitHub", [("access_token", "old"), ("extra", "x")]),
          ("Todoist", [("access_token", "td")])]).store "GitHub"
      = some [("access_token", "new")]
    ∧ dictGet (save_authorization_data_and_return_response
        [("access_token", "new"), ("scope", "repo")] "GitHub" (.response 200)
        [("GitHub", [("access_token", "old"), ("extra", "x")]),
          ("Todoist", [("access_token", "td")])]).store "Todoist"
      = some [("access_token", "td")]
    ∧ (save_authorization_data_and_return_response
        [("access_token", "new"), ("scope", "repo")] "GitHub" (.response 200)
        [("GitHub", [("access_token", "old"), ("extra", "x")]),
          ("Todoist", [("access_token", "td")])]).events
      = [.postBackend "GitHub" [("access_token", "new"), ("scope", "repo")],
          .writeStore "GitHub" "new"] := by
  have h := c7_persist_write_frame
    [("access_token", "new"), ("scope", "repo")] "GitHub" "new"
    [("GitHub", [("access_token", "old"), ("extra", "x")]),
      ("Todoist", [("access_token", "td")])] 200 (by decide) (by decide)
  exact ⟨h.1, by rw [h.2.1 "Todoist" (by decide)]; decide, h.2.2⟩

/-- C9: persist sends the raw provider payload to the durable backend
before validating access_token: for every payload lacking access_token
that the backend accepts with a 2xx status, the event trace shows the
backend POST of the raw payload has already happened when the attempt
fails with the no-access-token ValueError, while the local mapping stays
unchanged — so the durable copy and the local cache diverge. -/
theorem c9_post_before_validation (payload : Payload) (sys : String)
    (store : Store) (s : Nat)
    (hp : dictGet payload "access_token" = none)
    (h1 : 200 ≤ s) (h2 : s < 300) :
    (save_authorization_data_and_return_response payload sys
        (.response s) store).events = [.postBackend sys payload]
    ∧ (save_authorization_data_and_return_response payload sys
        (.response s) store).store = store
    ∧ (save_authorization_data_and_return_response payload sys
        (.response s) store).outcome
      = .valueError "No access token found in authorization_data_response"
    ∧ "No access token found in authorization_data_response"
      = "No access token found" ++ " in authorization_data_response" := by
  have htake : "No access token found in authorization_data_response"
      = "No access token found" ++ " in authorization_data_response" := by decide
  have hs : isHttpErrorStatus s = false := by
    simp only [isHttpErrorStatus, decide_eq_false_iff_not]
    omega
  refine ⟨?_, ?_, ?_, htake⟩ <;>
    simp [save_authorization_data_and_return_response, hs, hp]

/-- Witness for C9: a payload without access_token, backend replying 200 —
the POST is on the trace, the store is untouched, the ValueError ends the
attempt. -/
theorem c9_post_before_validation_witness :
    (save_authorization_data_and_return_response [("scope", "repo")]
        "GitHub" (.response 200) []).events
      = [.postBackend "GitHub" [("scope", "repo")]]
    ∧ (save_authorization_data_and_return_response [("scope", "repo")]
        "GitHub" (.response 200) []).store = ([] : Store)
    ∧ (save_authorization_data_and_return_response [("scope", "repo")]
        "GitHub" (.response 200) []).outcome
      = .valueError "No access token found in authorization_data_response"
    ∧ "No access token found in authorization_data_response"
      = "No access token found" ++ " in authorization_data_response" :=
  c9_post_before_validation [("scope", "repo")] "GitHub" [] 200
    (by decide) (by decide) (by decide)

end Agnia
